import Mathlib

/-!
Shallow embedding of `src/static/js/analysis.js` (ARQV30 Enhanced v3.0
front-end controller).  The file contains two parallel implementations:

* the class `ModernAnalysisSystem` (lines 2-925), embedded in the
  namespace `ModernAnalysisSystem`; and
* a set of free functions operating on module-level globals
  (lines 1094-1433), embedded in the namespace `Globals`.

The embedding models the observable behaviour relevant to the verified
properties: the controller state (current session id, interval-timer
handles, the in-memory session map, the paused flag, browser
`localStorage`), the notifications emitted, the number of `fetch` calls
issued, the number of session-list refetches, `console` log events and
the progress-display values written to the DOM.  Purely presentational
DOM mutations (CSS classes, button visibility, scrolling, focus) are not
modelled.  Network interactions are modelled by passing the response (or
the thrown transport error) as an explicit argument of type
`FetchResult`.
-/

/-- Severity of a toast notification (`showNotification`'s `type`
argument: `info`, `success`, `warning`, `error`). -/
inductive Severity where
  | info
  | success
  | warning
  | error
deriving DecidableEq, Repr

/-- A toast notification: message plus severity. -/
structure Notif where
  msg : String
  sev : Severity
deriving DecidableEq, Repr

def notifInfo (m : String) : Notif := { msg := m, sev := Severity.info }

def notifSuccess (m : String) : Notif := { msg := m, sev := Severity.success }

def notifWarning (m : String) : Notif := { msg := m, sev := Severity.warning }

def notifError (m : String) : Notif := { msg := m, sev := Severity.error }

/-- Result of an `await fetch(...)` / `await response.json()` pair:
either a parsed value or a thrown transport/parse error with the
`error.message` string. -/
inductive FetchResult (α : Type) where
  | ok (v : α)
  | thrown (msg : String)
deriving DecidableEq, Repr

/-- JavaScript truthiness of a possibly-missing string (`undefined`,
`null` and `""` are falsy). -/
def truthy : Option String → Bool
  | none => false
  | some s => s != ""

/-- Drop leading whitespace characters from a character list. -/
def dropLeadingWs : List Char → List Char
  | [] => []
  | c :: cs => if c.isWhitespace then dropLeadingWs cs else c :: cs

/-- JavaScript `String.prototype.trim`: strip whitespace from both ends
of the string.  Defined by structural recursion over the character list
so that it evaluates by kernel reduction. -/
def jsTrim (s : String) : String :=
  String.mk ((dropLeadingWs ((dropLeadingWs s.data).reverse)).reverse)

/-- JavaScript `x || dflt` on a possibly-missing string: the default is
taken when the value is missing or empty (falsy). -/
def orDefault (o : Option String) (dflt : String) : String :=
  match o with
  | none => dflt
  | some s => if s == "" then dflt else s

/-- A `Session` record as delivered by `/api/sessions` and used by the
rendering code (fields read in `renderSessionsList`,
`showSessionDetails` and `getSessionActions`). -/
structure Session where
  session_id : String
  status : String
  segmento : Option String
  produto : Option String
  started_at : Option String
  completed_at : Option String
  etapas_salvas : Option Nat
  error : Option String
deriving DecidableEq, Repr

/-- Browser `localStorage`, modelled as a partial map from keys to
string values. -/
def Storage : Type := String → Option String

/-- Model of `localStorage.setItem k v`. -/
def storageSet (st : Storage) (k v : String) : Storage :=
  fun k2 => if k2 == k then some v else st k2

/-- Model of `localStorage.removeItem k`. -/
def storageRemove (st : Storage) (k : String) : Storage :=
  fun k2 => if k2 == k then none else st k2

/-- Client-side controller state of `ModernAnalysisSystem`: the fields
mutated by the class (`this.currentSessionId`, `this.progressInterval`,
`this.sessions`, `this.isPaused`) together with `localStorage` and the
set of interval timers currently live in the browser.  `liveTimers`
tracks every `setInterval` timer that has been created and not yet
passed to `clearInterval`; `progressInterval` is the handle the class
currently stores. -/
structure St where
  currentSessionId : Option String
  progressInterval : Option Nat
  liveTimers : List Nat
  nextTimerId : Nat
  sessions : List (String × Session)
  isPaused : Bool
  storage : Storage

/-- Initial state after `new ModernAnalysisSystem()` (constructor, lines
3-11), before any startup recovery runs: no session, no timer, empty
session map, nothing persisted. -/
def initSt : St :=
  { currentSessionId := none
  , progressInterval := none
  , liveTimers := []
  , nextTimerId := 0
  , sessions := []
  , isPaused := false
  , storage := fun _ => none }

/-- Values written to the DOM by `ModernAnalysisSystem.updateProgress`
(lines 656-681): the `.progress-fill` width percentage, the numeric
percentage rendered into `.progress-percentage` (the argument of
`Math.round`, which is the identity here because percentages are
modelled as integers), the `.progress-status` message when present, and
the percentage rendered into `document.title`. -/
structure ProgressDisplay where
  fillWidth : Int
  percentText : Int
  statusMessage : Option String
  titlePercent : Int
deriving DecidableEq, Repr

/-- Observable outcome of running one handler: the state after the
handler, the notifications it showed, how many `fetch` calls it issued,
how many times it invoked `loadSavedSessions` (session-list refetches),
the `console.error`/`console.warn` events, and the progress displays it
wrote. -/
structure Outcome where
  st : St
  notifs : List Notif
  fetches : Nat
  refetches : Nat
  logs : List String
  displays : List ProgressDisplay

/-- Parsed JSON body of `POST /api/sessions/{id}/pause` and the other
lifecycle endpoints: `{success, error}`. -/
structure SimpleResp where
  success : Bool
  error : Option String
deriving DecidableEq, Repr

/-- Parsed JSON body of `GET /api/sessions`, together with
`response.ok` (checked before `.json()` in `loadSavedSessions`). -/
structure SessionsResp where
  httpOk : Bool
  success : Bool
  sessions : List Session
deriving DecidableEq, Repr

/-- Response of `POST /api/analyze` as consumed by the class
`startAnalysis`: HTTP status information (`response.ok`,
`response.status`, `response.statusText`) plus the parsed
`{success, session_id, error}` body.  `session_id` is taken to be
present on `success:true` responses, per the API contract. -/
structure AnalyzeResp where
  httpOk : Bool
  status : Nat
  statusText : String
  success : Bool
  session_id : String
  error : Option String
deriving DecidableEq, Repr

/-- Parsed JSON body of `GET /api/progress/{session_id}`. -/
structure ProgressResp where
  success : Bool
  percentage : Int
  current_step : String
  total_steps : Int
  estimated_time : String
  completed : Bool
  error : Option String
deriving DecidableEq, Repr

/-- Parsed JSON body of `GET /api/sessions/{id}/status`. -/
structure StatusResp where
  success : Bool
  session : Session
deriving DecidableEq, Repr

namespace ModernAnalysisSystem

/-- Model of `validateFile` size ceiling (line 130): `10 * 1024 * 1024` bytes. -/
def maxSize : Nat := 10 * 1024 * 1024

/-- Model of `validateFile` MIME allow-list (lines 131-136). -/
def allowedTypes : List String :=
  [ "application/pdf"
  , "text/plain"
  , "application/msword"
  , "application/vnd.openxmlformats-officedocument.wordprocessingml.document" ]

/-- A file as seen by the upload handlers (`File.name`, `File.size`,
`File.type`). -/
structure MockFile where
  name : String
  size : Nat
  type : String
deriving DecidableEq, Repr

/-- Model of `ModernAnalysisSystem.validateFile` (lines 129-149): returns whether
the file is accepted together with the warning notifications shown. -/
def validateFile (file : MockFile) : Bool × List Notif :=
  if file.size > maxSize then
    (false, [notifWarning "Arquivo muito grande. Máximo 10MB."])
  else if ¬ file.type ∈ allowedTypes then
    (false, [notifWarning "Tipo de arquivo não suportado."])
  else
    (true, [])

/-- Model of `ModernAnalysisSystem.handleFiles` (lines 121-127): the list of
files actually passed to `uploadFile` — exactly those for which
`validateFile` returned `true`. -/
def handleFiles (files : List MockFile) : List MockFile :=
  files.filter (fun f => (validateFile f).1)

/-- Model of `ModernAnalysisSystem.validateForm` (lines 305-321).  The argument
is the value of the `[name="segmento"]` input (`none` when the element
is missing).  Returns whether validation passed and the warning
notifications shown.  The `produto` field is not consulted. -/
def validateForm (segmento : Option String) : Bool × List Notif :=
  match segmento with
  | none => (false, [notifWarning "Por favor, preencha o segmento"])
  | some v =>
    if jsTrim v == "" then
      (false, [notifWarning "Por favor, preencha o segmento"])
    else if (jsTrim v).length < 3 then
      (false, [notifWarning "Segmento deve ter pelo menos 3 caracteres"])
    else
      (true, [])

/-- Model of `ModernAnalysisSystem.updateProgress` (lines 656-681).  The bar
width is clamped with `Math.max(0, Math.min(100, percentage))`; the
percentage text and the document title use `Math.round(percentage)`
without clamping. -/
def updateProgress (percentage : Int) (message : String) (totalSteps : Int)
    (estimatedTime : String) : ProgressDisplay :=
  { fillWidth := max 0 (min 100 percentage)
  , percentText := percentage
  , statusMessage :=
      if message == "" then none
      else some (message ++
        (if estimatedTime == "" then "" else " Tempo estimado: " ++ estimatedTime))
  , titlePercent := percentage }

/-- Kinds of buttons rendered into a session card's action area by
`getSessionActions`. -/
inductive ActionKind where
  | contAction
  | viewAction
  | deleteAction
deriving DecidableEq, Repr

/-- Model of `ModernAnalysisSystem.getSessionActions` (lines 511-540): the
*Continuar* button when the status is in `['paused', 'error', 'saved']`,
the *Ver Resultados* button when the status is `'completed'`, and always
the delete button. -/
def getSessionActions (session : Session) : List ActionKind :=
  (if session.status ∈ (["paused", "error", "saved"] : List String) then
    [ActionKind.contAction]
  else []) ++
  (if session.status == "completed" then [ActionKind.viewAction] else []) ++
  [ActionKind.deleteAction]

/-- Model of `ModernAnalysisSystem.startProgressMonitoring` (lines 611-647),
timer management only: returns unchanged when `this.currentSessionId`
is falsy, otherwise creates a fresh interval timer and stores its
handle in `this.progressInterval`, overwriting whatever handle was
stored before.  No previously live timer is cleared. -/
def startProgressMonitoring (s : St) : St :=
  if truthy s.currentSessionId then
    { s with progressInterval := some s.nextTimerId
           , liveTimers := s.nextTimerId :: s.liveTimers
           , nextTimerId := s.nextTimerId + 1 }
  else s

/-- Model of `ModernAnalysisSystem.stopProgressMonitoring` (lines 649-654):
clears the stored interval, if any, and nulls the handle. -/
def stopProgressMonitoring (s : St) : St :=
  match s.progressInterval with
  | some t => { s with liveTimers := s.liveTimers.erase t, progressInterval := none }
  | none => s

/-- Model of `ModernAnalysisSystem.loadSavedSessions` (lines 430-456): on a
successful response the in-memory session map is replaced wholesale by
the fetched list; on `success:false` or any thrown error the map is
left as it was and only the empty-state view is rendered. -/
def loadSavedSessions (s : St) (resp : FetchResult SessionsResp) : Outcome :=
  match resp with
  | FetchResult.thrown _ =>
    { st := s, notifs := [], fetches := 1, refetches := 1
    , logs := ["Erro ao carregar sessões:"], displays := [] }
  | FetchResult.ok r =>
    if ¬ r.httpOk then
      { st := s, notifs := [], fetches := 1, refetches := 1
      , logs := ["Erro ao carregar sessões:"], displays := [] }
    else if r.success then
      { st := { s with sessions := r.sessions.map (fun ss => (ss.session_id, ss)) }
      , notifs := [], fetches := 1, refetches := 1, logs := [], displays := [] }
    else
      { st := s, notifs := [], fetches := 1, refetches := 1
      , logs := ["Nenhuma sessão encontrada"], displays := [] }

/-- Model of `ModernAnalysisSystem.pauseSession` (lines 323-348): warning and no
request when no session is active; on success set `isPaused`, stop the
poll and notify; on `success:false` (thrown as `Error(result.error)`)
or transport failure, an error notification only. -/
def pauseSession (s : St) (resp : FetchResult SimpleResp) : Outcome :=
  if ¬ truthy s.currentSessionId then
    { st := s, notifs := [notifWarning "Nenhuma sessão ativa para pausar"]
    , fetches := 0, refetches := 0, logs := [], displays := [] }
  else
    match resp with
    | FetchResult.thrown m =>
      { st := s, notifs := [notifError ("Erro ao pausar: " ++ m)]
      , fetches := 1, refetches := 0, logs := [], displays := [] }
    | FetchResult.ok r =>
      if r.success then
        { st := stopProgressMonitoring { s with isPaused := true }
        , notifs := [notifSuccess "Sessão pausada com sucesso"]
        , fetches := 1, refetches := 0, logs := [], displays := [] }
      else
        { st := s
        , notifs := [notifError ("Erro ao pausar: " ++ (r.error.getD ""))]
        , fetches := 1, refetches := 0, logs := [], displays := [] }

/-- Model of `ModernAnalysisSystem.resumeSession` (lines 350-375): on success
clear `isPaused` and start a fresh poll; on failure an error
notification only. -/
def resumeSession (s : St) (resp : FetchResult SimpleResp) : Outcome :=
  if ¬ truthy s.currentSessionId then
    { st := s, notifs := [notifWarning "Nenhuma sessão para resumir"]
    , fetches := 0, refetches := 0, logs := [], displays := [] }
  else
    match resp with
    | FetchResult.thrown m =>
      { st := s, notifs := [notifError ("Erro ao resumir: " ++ m)]
      , fetches := 1, refetches := 0, logs := [], displays := [] }
    | FetchResult.ok r =>
      if r.success then
        { st := startProgressMonitoring { s with isPaused := false }
        , notifs := [notifSuccess "Sessão resumida com sucesso"]
        , fetches := 1, refetches := 0, logs := [], displays := [] }
      else
        { st := s
        , notifs := [notifError ("Erro ao resumir: " ++ (r.error.getD ""))]
        , fetches := 1, refetches := 0, logs := [], displays := [] }

/-- Model of `ModernAnalysisSystem.saveSession` (lines 377-400): on success a
confirmation notification followed by `await loadSavedSessions()`; on
failure an error notification only. -/
def saveSession (s : St) (resp : FetchResult SimpleResp)
    (srsp : FetchResult SessionsResp) : Outcome :=
  if ¬ truthy s.currentSessionId then
    { st := s, notifs := [notifWarning "Nenhuma sessão para salvar"]
    , fetches := 0, refetches := 0, logs := [], displays := [] }
  else
    match resp with
    | FetchResult.thrown m =>
      { st := s, notifs := [notifError ("Erro ao salvar: " ++ m)]
      , fetches := 1, refetches := 0, logs := [], displays := [] }
    | FetchResult.ok r =>
      if r.success then
        let load := loadSavedSessions s srsp
        { st := load.st
        , notifs := [notifSuccess "Sessão salva com sucesso"] ++ load.notifs
        , fetches := 1 + load.fetches
        , refetches := load.refetches
        , logs := load.logs, displays := [] }
      else
        { st := s
        , notifs := [notifError ("Erro ao salvar: " ++ (r.error.getD ""))]
        , fetches := 1, refetches := 0, logs := [], displays := [] }

/-- Model of `ModernAnalysisSystem.continueSession` (lines 402-428): shows the
progress view, posts the continue request; on success records the
session id in memory and in `localStorage` and starts a poll; on
failure an error notification only. -/
def continueSession (s : St) (sessionId : String)
    (resp : FetchResult SimpleResp) : Outcome :=
  let d0 := updateProgress 0 "Continuando sessão..." 13 ""
  match resp with
  | FetchResult.thrown m =>
    { st := s, notifs := [notifError ("Erro ao continuar: " ++ m)]
    , fetches := 1, refetches := 0, logs := [], displays := [d0] }
  | FetchResult.ok r =>
    if r.success then
      let s1 := { s with currentSessionId := some sessionId
                       , storage := storageSet s.storage "currentSessionId" sessionId }
      { st := startProgressMonitoring s1
      , notifs := [notifSuccess "Sessão continuada com sucesso"]
      , fetches := 1, refetches := 0, logs := [], displays := [d0] }
    else
      { st := s
      , notifs := [notifError ("Erro ao continuar: " ++ (r.error.getD ""))]
      , fetches := 1, refetches := 0, logs := [], displays := [d0] }

/-- Model of `ModernAnalysisSystem.deleteSession` (lines 758-781): nothing
happens when the `confirm` dialog is declined; on success the session
is removed from the in-memory map; on failure an error notification
only. -/
def deleteSession (s : St) (sessionId : String) (confirmed : Bool)
    (resp : FetchResult SimpleResp) : Outcome :=
  if ¬ confirmed then
    { st := s, notifs := [], fetches := 0, refetches := 0, logs := [], displays := [] }
  else
    match resp with
    | FetchResult.thrown m =>
      { st := s, notifs := [notifError ("Erro ao excluir: " ++ m)]
      , fetches := 1, refetches := 0, logs := [], displays := [] }
    | FetchResult.ok r =>
      if r.success then
        { st := { s with sessions := s.sessions.filter (fun p => p.1 != sessionId) }
        , notifs := [notifSuccess "Sessão excluída com sucesso"]
        , fetches := 1, refetches := 0, logs := [], displays := [] }
      else
        { st := s
        , notifs := [notifError ("Erro ao excluir: " ++ (r.error.getD ""))]
        , fetches := 1, refetches := 0, logs := [], displays := [] }

/-- Model of `ModernAnalysisSystem.clearAllSessions` (lines 783-806): nothing
happens when the `confirm` dialog is declined; on success the in-memory
map is emptied; on failure an error notification only. -/
def clearAllSessions (s : St) (confirmed : Bool)
    (resp : FetchResult SimpleResp) : Outcome :=
  if ¬ confirmed then
    { st := s, notifs := [], fetches := 0, refetches := 0, logs := [], displays := [] }
  else
    match resp with
    | FetchResult.thrown m =>
      { st := s, notifs := [notifError ("Erro ao limpar sessões: " ++ m)]
      , fetches := 1, refetches := 0, logs := [], displays := [] }
    | FetchResult.ok r =>
      if r.success then
        { st := { s with sessions := [] }
        , notifs := [notifSuccess "Todas as sessões foram excluídas"]
        , fetches := 1, refetches := 0, logs := [], displays := [] }
      else
        { st := s
        , notifs := [notifError ("Erro ao limpar sessões: " ++ (r.error.getD ""))]
        , fetches := 1, refetches := 0, logs := [], displays := [] }

/-- The six session lifecycle actions of the spec (pause, resume, save,
continue, delete, clear-all).  `delete` and `clearAll` carry the result
of the `confirm` dialog. -/
inductive LifecycleAction where
  | pause
  | resume
  | save
  | cont (sessionId : String)
  | delete (sessionId : String) (confirmed : Bool)
  | clearAll (confirmed : Bool)
deriving DecidableEq, Repr

/-- Dispatch one lifecycle action to its handler.  The session-list
response `srsp` is consumed only by `saveSession`'s success path. -/
def applyLifecycle (s : St) (a : LifecycleAction) (resp : FetchResult SimpleResp)
    (srsp : FetchResult SessionsResp) : Outcome :=
  match a with
  | LifecycleAction.pause => pauseSession s resp
  | LifecycleAction.resume => resumeSession s resp
  | LifecycleAction.save => saveSession s resp srsp
  | LifecycleAction.cont sid => continueSession s sid resp
  | LifecycleAction.delete sid c => deleteSession s sid c resp
  | LifecycleAction.clearAll c => clearAllSessions s c resp

/-- Whether a lifecycle action reaches its `fetch` call from state `s`:
pause/resume/save bail out with a warning when no session is active,
delete and clear-all bail out when the `confirm` dialog was declined,
continue always issues the request. -/
def issuesRequest (s : St) (a : LifecycleAction) : Bool :=
  match a with
  | LifecycleAction.pause => truthy s.currentSessionId
  | LifecycleAction.resume => truthy s.currentSessionId
  | LifecycleAction.save => truthy s.currentSessionId
  | LifecycleAction.cont _ => true
  | LifecycleAction.delete _ c => c
  | LifecycleAction.clearAll c => c

/-- Whether a lifecycle request failed: the transport threw, or the
server answered `success:false`. -/
def requestFailed (resp : FetchResult SimpleResp) : Bool :=
  match resp with
  | FetchResult.thrown _ => true
  | FetchResult.ok r => !r.success

/-- The first form entry with the given name
(`document.querySelector('[name=...]')` against the serialized form
data). -/
def formValue (entries : List (String × String)) (k : String) : Option String :=
  (entries.find? (fun p => p.1 == k)).map (fun p => p.2)

/-- Model of `ModernAnalysisSystem.startAnalysis` (lines 251-303).  `form` is
`none` when the `analysisForm` element is missing, otherwise the list
of form entries.  Validation consults only the `segmento` entry; on
valid input the analyze request is issued and, on success, the session
id is recorded in memory and `localStorage` and polling starts. -/
def startAnalysis (s : St) (form : Option (List (String × String)))
    (resp : FetchResult AnalyzeResp) : Outcome :=
  match form with
  | none =>
    { st := s, notifs := [notifError "Formulário não encontrado"]
    , fetches := 0, refetches := 0, logs := [], displays := [] }
  | some entries =>
    let v := validateForm (formValue entries "segmento")
    if ¬ v.1 then
      { st := s, notifs := v.2, fetches := 0, refetches := 0
      , logs := [], displays := [] }
    else
      let d0 := updateProgress 0 "Iniciando análise..." 13 ""
      match resp with
      | FetchResult.thrown m =>
        { st := s, notifs := [notifError ("Erro na análise: " ++ m)]
        , fetches := 1, refetches := 0, logs := ["Erro na análise:"]
        , displays := [d0] }
      | FetchResult.ok r =>
        if ¬ r.httpOk then
          { st := s
          , notifs := [notifError ("Erro na análise: HTTP " ++ toString r.status
              ++ ": " ++ r.statusText)]
          , fetches := 1, refetches := 0, logs := ["Erro na análise:"]
          , displays := [d0] }
        else if r.success then
          let s1 := { s with currentSessionId := some r.session_id
                           , storage := storageSet s.storage "currentSessionId" r.session_id }
          { st := startProgressMonitoring s1
          , notifs := [notifSuccess ("Análise iniciada! Sessão: " ++ r.session_id)]
          , fetches := 1, refetches := 0, logs := [], displays := [d0] }
        else
          { st := s
          , notifs := [notifError ("Erro na análise: " ++ orDefault r.error "Erro desconhecido")]
          , fetches := 1, refetches := 0, logs := ["Erro na análise:"]
          , displays := [d0] }

/-- The body of the `setInterval` callback installed by
`ModernAnalysisSystem.startProgressMonitoring` (lines 614-646), run for
one tick.  On `success:true` the display is updated; additionally, when
`completed` is set, the timer is stopped, a success notification shown,
`currentSessionId` removed from `localStorage` and the session list
reloaded.  On `success:false` with a truthy `error` the timer is
stopped with an error notification.  A thrown transport error is only
logged by the `catch` block and the timer keeps running. -/
def progressTick (s : St) (resp : FetchResult ProgressResp)
    (srsp : FetchResult SessionsResp) : Outcome :=
  match resp with
  | FetchResult.thrown _ =>
    { st := s, notifs := [], fetches := 1, refetches := 0
    , logs := ["Erro no monitoramento:"], displays := [] }
  | FetchResult.ok d =>
    if d.success then
      let disp := updateProgress d.percentage d.current_step d.total_steps d.estimated_time
      if d.completed then
        let s1 := stopProgressMonitoring s
        let s2 := { s1 with storage := storageRemove s1.storage "currentSessionId" }
        let load := loadSavedSessions s2 srsp
        { st := load.st
        , notifs := [notifSuccess "Análise concluída com sucesso!"] ++ load.notifs
        , fetches := 1 + load.fetches
        , refetches := load.refetches
        , logs := load.logs, displays := [disp] }
      else
        { st := s, notifs := [], fetches := 1, refetches := 0
        , logs := [], displays := [disp] }
    else
      match d.error with
      | some e =>
        if e == "" then
          { st := s, notifs := [], fetches := 1, refetches := 0
          , logs := [], displays := [] }
        else
          { st := stopProgressMonitoring s
          , notifs := [notifError ("Erro: " ++ e)]
          , fetches := 1, refetches := 0, logs := [], displays := [] }
      | none =>
        { st := s, notifs := [], fetches := 1, refetches := 0
        , logs := [], displays := [] }

/-- Model of `ModernAnalysisSystem.checkSessionStatus` (lines 720-756), the
startup-recovery branch on the persisted session's status.  A thrown
transport or parse error is logged and `currentSessionId` is removed
from `localStorage`; a `success:true` response branches on the status;
a `success:false` response does nothing. -/
def checkSessionStatus (s : St) (resp : FetchResult StatusResp) : Outcome :=
  match resp with
  | FetchResult.thrown _ =>
    { st := { s with storage := storageRemove s.storage "currentSessionId" }
    , notifs := [], fetches := 1, refetches := 0
    , logs := ["Erro ao verificar status da sessão:"], displays := [] }
  | FetchResult.ok r =>
    if r.success then
      if r.session.status == "running" then
        { st := startProgressMonitoring s
        , notifs := [notifInfo "Sessão anterior restaurada e em execução"]
        , fetches := 1, refetches := 0, logs := [], displays := [] }
      else if r.session.status == "paused" then
        { st := s, notifs := [notifInfo "Sessão anterior encontrada (pausada)"]
        , fetches := 1, refetches := 0, logs := [], displays := [] }
      else if r.session.status == "completed" then
        { st := { s with storage := storageRemove s.storage "currentSessionId" }
        , notifs := [notifSuccess "Última sessão foi concluída"]
        , fetches := 1, refetches := 0, logs := [], displays := [] }
      else if r.session.status == "error" then
        { st := s, notifs := [notifWarning "Última sessão teve erro"]
        , fetches := 1, refetches := 0, logs := [], displays := [] }
      else
        { st := s, notifs := [], fetches := 1, refetches := 0
        , logs := [], displays := [] }
    else
      { st := s, notifs := [], fetches := 1, refetches := 0
      , logs := [], displays := [] }

end ModernAnalysisSystem

namespace Globals

/-- Values written to the DOM by the free function `updateProgressUI`
(lines 1423-1433): the `#progress-bar` width percentage (no clamping)
and the `#progress-text` content. -/
structure GlobalsDisplay where
  width : Int
  text : String
deriving DecidableEq, Repr

/-- The free function `updateProgressUI` (lines 1423-1433). -/
def updateProgressUI (percentage : Int) (step : String)
    (estimatedTime : String) : GlobalsDisplay :=
  { width := percentage
  , text := step ++ " (" ++ estimatedTime ++ ")" }

/-- Response of `POST /api/analyze` as consumed by the free function
`startAnalysis` (lines 1194-1273): whether the `content-type` was JSON,
HTTP status information, and the parsed body. -/
structure GlobalsAnalyzeResp where
  isJson : Bool
  httpOk : Bool
  status : Nat
  success : Bool
  session_id : Option String
  error : Option String
deriving DecidableEq, Repr

/-- Observable outcome of the free function `startAnalysis`: the
notifications shown, the number of `fetch` calls issued, the value
stored into the global `currentSessionId` when the monitor was started,
and whether `startProgressMonitoring` was invoked. -/
structure GlobalsStartOut where
  notifs : List Notif
  fetches : Nat
  sessionSet : Option String
  monitoringStarted : Bool
  logs : List String
deriving DecidableEq, Repr

/-- The free function `startAnalysis` (lines 1194-1273).  The arguments
are the trimmed-on-read values of the `#segmento` and `#produto`
elements (`none` when the element is missing).  Validation requires
both to be truthy; there is no minimum length, and the failure
notification has severity `error`. -/
def startAnalysis (segmento produto : Option String)
    (resp : FetchResult GlobalsAnalyzeResp) : GlobalsStartOut :=
  let segT := segmento.map jsTrim
  let prodT := produto.map jsTrim
  if ¬ truthy segT ∨ ¬ truthy prodT then
    { notifs := [notifError "Por favor, preencha todos os campos obrigatórios"]
    , fetches := 0, sessionSet := none, monitoringStarted := false, logs := [] }
  else
    let started := notifInfo "Iniciando análise avançada..."
    match resp with
    | FetchResult.thrown m =>
      { notifs := [started, notifError ("Erro: " ++ m)]
      , fetches := 1, sessionSet := none, monitoringStarted := false
      , logs := ["Erro na análise:"] }
    | FetchResult.ok r =>
      if ¬ r.isJson then
        { notifs := [started, notifError "Erro: Servidor retornou resposta inválida"]
        , fetches := 1, sessionSet := none, monitoringStarted := false
        , logs := ["Resposta não é JSON:", "Erro na análise:"] }
      else if ¬ r.httpOk then
        { notifs := [started
            , notifError ("Erro: " ++ orDefault r.error ("Erro HTTP: " ++ toString r.status))]
        , fetches := 1, sessionSet := none, monitoringStarted := false
        , logs := ["Erro na análise:"] }
      else if r.success then
        if truthy r.session_id then
          { notifs := [started, notifSuccess "Análise iniciada com sucesso!"]
          , fetches := 1, sessionSet := r.session_id, monitoringStarted := true
          , logs := [] }
        else
          { notifs := [started, notifSuccess "Análise iniciada com sucesso!"]
          , fetches := 1, sessionSet := none, monitoringStarted := false
          , logs := [] }
      else
        { notifs := [started
            , notifError ("Erro: " ++ orDefault r.error "Erro desconhecido na análise")]
        , fetches := 1, sessionSet := none, monitoringStarted := false
        , logs := ["Erro na análise:"] }

/-- Observable outcome of one tick of the free poller: whether
`clearInterval(progressInterval)` ran, the notifications shown, the
`console.error` events, whether anything was removed from
`localStorage`, how many times the session list was re-fetched, and the
progress display written. -/
structure GlobalsTickOut where
  intervalCleared : Bool
  notifs : List Notif
  logs : List String
  storageRemoved : Bool
  refetches : Nat
  displays : List GlobalsDisplay
deriving DecidableEq, Repr

/-- The body of the `setInterval` callback installed by the free
function `startProgressMonitoring` (lines 1397-1420), run for one
tick.  A `success:false` body throws inside the `try`, so it is handled
by the same `catch` as a transport failure: in both cases the interval
is cleared and an error notification shown.  On `completed:true` the
interval is cleared with a success notification; nothing is removed
from `localStorage` and the session list is never re-fetched. -/
def progressTick (resp : FetchResult ProgressResp) : GlobalsTickOut :=
  match resp with
  | FetchResult.thrown m =>
    { intervalCleared := true
    , notifs := [notifError ("Erro no monitoramento: " ++ m)]
    , logs := ["Falha ao monitorar progresso:"]
    , storageRemoved := false, refetches := 0, displays := [] }
  | FetchResult.ok d =>
    if d.success then
      let disp := updateProgressUI d.percentage d.current_step d.estimated_time
      if d.completed then
        { intervalCleared := true
        , notifs := [notifSuccess "Análise concluída!"]
        , logs := [], storageRemoved := false, refetches := 0
        , displays := [disp] }
      else
        { intervalCleared := false, notifs := [], logs := []
        , storageRemoved := false, refetches := 0, displays := [disp] }
    else
      { intervalCleared := true
      , notifs := [notifError ("Erro no monitoramento: "
          ++ orDefault d.error "Erro ao obter progresso")]
      , logs := ["Falha ao monitorar progresso:"]
      , storageRemoved := false, refetches := 0, displays := [] }

end Globals

/-- One externally triggered execution step of the class controller: a
form submission, a lifecycle button, a poll tick, a session-list
refresh, the startup status check, or an explicit stop.  Each event
carries the server's response (or thrown transport error) for the
requests the handler issues. -/
inductive Event where
  | startAnalysisE (form : Option (List (String × String)))
      (resp : FetchResult AnalyzeResp)
  | lifecycleE (a : ModernAnalysisSystem.LifecycleAction)
      (resp : FetchResult SimpleResp)
      (srsp : FetchResult SessionsResp)
  | progressTickE (resp : FetchResult ProgressResp)
      (srsp : FetchResult SessionsResp)
  | loadSessionsE (resp : FetchResult SessionsResp)
  | checkStatusE (resp : FetchResult StatusResp)
  | stopMonitoringE

/-- State transition of one event (the state component of the
corresponding handler's outcome). -/
def step (s : St) : Event → St
  | Event.startAnalysisE f r => (ModernAnalysisSystem.startAnalysis s f r).st
  | Event.lifecycleE a r sr => (ModernAnalysisSystem.applyLifecycle s a r sr).st
  | Event.progressTickE r sr => (ModernAnalysisSystem.progressTick s r sr).st
  | Event.loadSessionsE r => (ModernAnalysisSystem.loadSavedSessions s r).st
  | Event.checkStatusE r => (ModernAnalysisSystem.checkSessionStatus s r).st
  | Event.stopMonitoringE => ModernAnalysisSystem.stopProgressMonitoring s

/-- Run a sequence of events from a state. -/
def run (s : St) (es : List Event) : St := es.foldl step s

/-- A state is reachable when some event sequence leads to it from the
freshly constructed controller. -/
def Reachable (s2 : St) : Prop := ∃ es : List Event, run initSt es = s2

/-! Concrete example values used by witnesses and counterexamples. -/

/-- Example controller state: session `abc123` active, one live poll
timer with handle `0`, the session id persisted. -/
def exSt : St :=
  { currentSessionId := some "abc123"
  , progressInterval := some 0
  , liveTimers := [0]
  , nextTimerId := 1
  , sessions := []
  , isPaused := false
  , storage := storageSet (fun _ => none) "currentSessionId" "abc123" }

/-- Example successful `POST /api/analyze` response. -/
def analyzeOkResp : AnalyzeResp :=
  { httpOk := true, status := 200, statusText := "OK", success := true
  , session_id := "abc123", error := none }

/-- Example successful `GET /api/sessions` response with no sessions. -/
def sessOkResp : FetchResult SessionsResp :=
  FetchResult.ok { httpOk := true, success := true, sessions := [] }

/-- Example progress response with the completion flag set. -/
def completedResp : ProgressResp :=
  { success := true, percentage := 100, current_step := "Concluído"
  , total_steps := 13, estimated_time := "", completed := true, error := none }

/-- Example progress response carrying an explicit application error. -/
def errorResp : ProgressResp :=
  { success := false, percentage := 0, current_step := ""
  , total_steps := 13, estimated_time := "", completed := false
  , error := some "Falha interna" }

/-- Example successful `POST /api/analyze` response as seen by the free
`startAnalysis`. -/
def globalsOkResp : Globals.GlobalsAnalyzeResp :=
  { isJson := true, httpOk := true, status := 200, success := true
  , session_id := some "abc123", error := none }

/-- A 10 MiB + 1 byte PDF file. -/
def bigFile : ModernAnalysisSystem.MockFile :=
  { name := "grande.pdf", size := 10 * 1024 * 1024 + 1, type := "application/pdf" }

/-- An exactly-10-MiB PDF file. -/
def tenMiBFile : ModernAnalysisSystem.MockFile :=
  { name := "relatorio.pdf", size := 10 * 1024 * 1024, type := "application/pdf" }

/-! Theorems settling the claims. -/

/-- C7: the *Continuar* action is offered for a rendered session if and
only if its status is one of `paused`, `error`, `saved`. -/
theorem c7_continue_iff (sess : Session) :
    ModernAnalysisSystem.ActionKind.contAction ∈
      ModernAnalysisSystem.getSessionActions sess ↔
    (sess.status = "paused" ∨ sess.status = "error" ∨ sess.status = "saved") := by
  simp [ModernAnalysisSystem.getSessionActions]

/-- C10: a file of exactly `10 * 1024 * 1024` bytes with an allow-listed
MIME type passes `validateFile` with no notification and is passed on to
the upload call by `handleFiles`: the size check rejects only strictly
larger files. -/
theorem c10_boundary_file_accepted :
    (ModernAnalysisSystem.validateFile tenMiBFile).1 = true ∧
    (ModernAnalysisSystem.validateFile tenMiBFile).2 = [] ∧
    tenMiBFile ∈ ModernAnalysisSystem.handleFiles [tenMiBFile] := by
  decide

/-- C8: a file larger than 10 MiB, or with a MIME type outside the
allow-list, fails `validateFile` with a warning notification and is
never passed to the upload call by `handleFiles`, whatever batch it
arrived in. -/
theorem c8_invalid_file_never_uploaded
    (files : List ModernAnalysisSystem.MockFile)
    (f : ModernAnalysisSystem.MockFile)
    (h : f.size > ModernAnalysisSystem.maxSize ∨
         ¬ f.type ∈ ModernAnalysisSystem.allowedTypes) :
    (ModernAnalysisSystem.validateFile f).1 = false ∧
    (∃ n ∈ (ModernAnalysisSystem.validateFile f).2, n.sev = Severity.warning) ∧
    ¬ f ∈ ModernAnalysisSystem.handleFiles files := by
  have hv : (ModernAnalysisSystem.validateFile f).1 = false ∧
      ∃ n ∈ (ModernAnalysisSystem.validateFile f).2, n.sev = Severity.warning := by
    by_cases hs : f.size > ModernAnalysisSystem.maxSize
    · simp [ModernAnalysisSystem.validateFile, hs, notifWarning]
    · rcases h with h | h
      · exact absurd h hs
      · simp [ModernAnalysisSystem.validateFile, hs, h, notifWarning]
  refine ⟨hv.1, hv.2, ?_⟩
  intro hmem
  rw [ModernAnalysisSystem.handleFiles, List.mem_filter] at hmem
  rw [hv.1] at hmem
  exact absurd hmem.2 (by simp)

/-- C8 witness: a 10 MiB + 1 byte PDF is rejected with a warning and is
not uploaded from the batch containing only it. -/
theorem c8_witness :
    (ModernAnalysisSystem.validateFile bigFile).1 = false ∧
    (∃ n ∈ (ModernAnalysisSystem.validateFile bigFile).2, n.sev = Severity.warning) ∧
    ¬ bigFile ∈ ModernAnalysisSystem.handleFiles [bigFile] :=
  c8_invalid_file_never_uploaded [bigFile] bigFile (Or.inl (by decide))

/-- C9: during startup recovery, a thrown transport or parse error in
`checkSessionStatus` removes the persisted `currentSessionId` from
browser storage (with only a console log, no notification). -/
theorem c9_transport_failure_clears_storage (s : St) (m : String) :
    (ModernAnalysisSystem.checkSessionStatus s (FetchResult.thrown m)).st.storage
      "currentSessionId" = none ∧
    (ModernAnalysisSystem.checkSessionStatus s (FetchResult.thrown m)).notifs = [] ∧
    (ModernAnalysisSystem.checkSessionStatus s (FetchResult.thrown m)).logs =
      ["Erro ao verificar status da sessão:"] := by
  refine ⟨?_, rfl, rfl⟩
  simp [ModernAnalysisSystem.checkSessionStatus, storageRemove]

/-- C6 counterexample: on percentage input `150`, the class
`updateProgress` renders `150` into the percentage text (unclamped,
violating the claim that every displayed value is clamped into
`[0,100]`), and the free `updateProgressUI` sets the bar width to `150`
as well. -/
theorem c6_counterexample :
    (ModernAnalysisSystem.updateProgress 150 "Coletando dados" 13 "").percentText = 150 ∧
    ¬ (ModernAnalysisSystem.updateProgress 150 "Coletando dados" 13 "").percentText ≤ 100 ∧
    (Globals.updateProgressUI 150 "Coletando dados" "").width = 150 := by
  decide

/-- C6 amended: in the class `updateProgress` only the progress-bar
width is clamped into `[0,100]`; the percentage text shows the rounded
raw input unclamped, and the free `updateProgressUI` applies no
clamping to the bar width at all. -/
theorem c6_amended (p : Int) (msg est stp : String) (ts : Int) :
    0 ≤ (ModernAnalysisSystem.updateProgress p msg ts est).fillWidth ∧
    (ModernAnalysisSystem.updateProgress p msg ts est).fillWidth ≤ 100 ∧
    (ModernAnalysisSystem.updateProgress p msg ts est).percentText = p ∧
    (Globals.updateProgressUI p stp est).width = p := by
  refine ⟨le_max_left 0 _, ?_, rfl, rfl⟩
  exact max_le (by norm_num) (min_le_left _ _)

/-- The two-event trace refuting the single-timer invariant: a
successful form submission starts the first poll timer, then a
successful resume (the resume button is live whenever a session id is
set) starts a second one without the first ever being cleared. -/
def c1Events : List Event :=
  [ Event.startAnalysisE (some [("segmento", "Moda"), ("produto", "Tenis")])
      (FetchResult.ok analyzeOkResp)
  , Event.lifecycleE ModernAnalysisSystem.LifecycleAction.resume
      (FetchResult.ok { success := true, error := none })
      sessOkResp ]

/-- C1 counterexample: it is not the case that every reachable state
has at most one live polling timer.  After `startAnalysis` succeeds and
`resumeSession` succeeds, `startProgressMonitoring` has run twice
without any intervening `clearInterval`, so two interval timers are
live simultaneously. -/
theorem c1_counterexample :
    ¬ (∀ s2 : St, Reachable s2 → s2.liveTimers.length ≤ 1) := by
  intro h
  have h2 := h (run initSt c1Events) ⟨c1Events, rfl⟩
  have h3 : (run initSt c1Events).liveTimers = [1, 0] := rfl
  rw [h3] at h2
  simp at h2

/-- C1 amended: starting a new poll cancels zero prior timers — when a
session id is set it creates one additional interval timer and stores
its handle, while every previously live timer keeps running (the old
handle is merely overwritten), so concurrent duplicate timers are
possible. -/
theorem c1_amended (s : St) (h : truthy s.currentSessionId = true) :
    (ModernAnalysisSystem.startProgressMonitoring s).liveTimers.length =
      s.liveTimers.length + 1 ∧
    ∀ t ∈ s.liveTimers, t ∈ (ModernAnalysisSystem.startProgressMonitoring s).liveTimers := by
  simp only [ModernAnalysisSystem.startProgressMonitoring, h, if_true]
  refine ⟨List.length_cons _ _, ?_⟩
  intro t ht
  exact List.mem_cons_of_mem _ ht

/-- C1 witness: instantiating the amended statement at the example
state with one live timer. -/
theorem c1_witness :
    (ModernAnalysisSystem.startProgressMonitoring exSt).liveTimers.length =
      exSt.liveTimers.length + 1 ∧
    ∀ t ∈ exSt.liveTimers, t ∈ (ModernAnalysisSystem.startProgressMonitoring exSt).liveTimers :=
  c1_amended exSt rfl

/-- Helper: whenever the class `validateForm` rejects, the notification
it showed has warning severity. -/
theorem validateForm_warning_of_failed (x : Option String)
    (h : (ModernAnalysisSystem.validateForm x).1 = false) :
    ∃ n ∈ (ModernAnalysisSystem.validateForm x).2, n.sev = Severity.warning := by
  cases x with
  | none =>
    refine ⟨notifWarning "Por favor, preencha o segmento", ?_, rfl⟩
    simp [ModernAnalysisSystem.validateForm]
  | some v =>
    by_cases h1 : jsTrim v == ""
    · refine ⟨notifWarning "Por favor, preencha o segmento", ?_, rfl⟩
      simp [ModernAnalysisSystem.validateForm, h1]
    · by_cases h2 : (jsTrim v).length < 3
      · refine ⟨notifWarning "Segmento deve ter pelo menos 3 caracteres", ?_, rfl⟩
        simp [ModernAnalysisSystem.validateForm, h1, h2]
      · simp [ModernAnalysisSystem.validateForm, h1, h2] at h

/-- C2 counterexample: the claim requires a warning and zero network
requests for every invalid input, including an empty product.  Against
the class controller, the form `segmento = "Moda", produto = ""` passes
validation (the product is never checked) and one network request is
issued; against the free `startAnalysis`, `segmento = "ab"` (shorter
than 3 characters) with a non-empty product also issues one request. -/
theorem c2_counterexample :
    (ModernAnalysisSystem.startAnalysis initSt
        (some [("segmento", "Moda"), ("produto", "")])
        (FetchResult.ok analyzeOkResp)).fetches = 1 ∧
    (ModernAnalysisSystem.startAnalysis initSt
        (some [("segmento", "Moda"), ("produto", "")])
        (FetchResult.ok analyzeOkResp)).notifs =
      [notifSuccess "Análise iniciada! Sessão: abc123"] ∧
    (Globals.startAnalysis (some "ab") (some "Tênis")
        (FetchResult.ok globalsOkResp)).fetches = 1 := by
  refine ⟨rfl, rfl, rfl⟩

/-- C2 amended: the class-based submission validates only the segment
field (non-empty and at least 3 characters after trimming) — on invalid
segment a warning notification is shown and zero network requests are
issued, but the product field is not validated at all.  The
free-function submission requires segment and product to be non-empty,
with no minimum length, and on invalid input shows an error-severity
(not warning) notification and issues zero network requests. -/
theorem c2_amended :
    (∀ (s : St) (entries : List (String × String)) (resp : FetchResult AnalyzeResp),
      (ModernAnalysisSystem.validateForm
          (ModernAnalysisSystem.formValue entries "segmento")).1 = false →
        (ModernAnalysisSystem.startAnalysis s (some entries) resp).fetches = 0 ∧
        (ModernAnalysisSystem.startAnalysis s (some entries) resp).st = s ∧
        ∃ n ∈ (ModernAnalysisSystem.startAnalysis s (some entries) resp).notifs,
          n.sev = Severity.warning) ∧
    (∀ (segmento produto : Option String) (resp : FetchResult Globals.GlobalsAnalyzeResp),
      (truthy (segmento.map jsTrim) = false ∨
       truthy (produto.map jsTrim) = false) →
        (Globals.startAnalysis segmento produto resp).fetches = 0 ∧
        ∃ n ∈ (Globals.startAnalysis segmento produto resp).notifs,
          n.sev = Severity.error) := by
  constructor
  · intro s entries resp hv
    have hw := validateForm_warning_of_failed
      (ModernAnalysisSystem.formValue entries "segmento") hv
    refine ⟨?_, ?_, ?_⟩
    · simp [ModernAnalysisSystem.startAnalysis, hv]
    · simp [ModernAnalysisSystem.startAnalysis, hv]
    · simpa [ModernAnalysisSystem.startAnalysis, hv] using hw
  · intro segmento produto resp hv
    have hcond : ¬ truthy (segmento.map jsTrim) = true ∨
        ¬ truthy (produto.map jsTrim) = true := by
      rcases hv with h | h
      · exact Or.inl (by simp [h])
      · exact Or.inr (by simp [h])
    refine ⟨?_, ?_⟩
    · simp only [Globals.startAnalysis, if_pos hcond]
    · refine ⟨notifError "Por favor, preencha todos os campos obrigatórios", ?_, rfl⟩
      simp only [Globals.startAnalysis, if_pos hcond]
      simp

/-- C2 witness: instantiating the amended statement at a two-character
segment for the class controller and an empty segment for the free
function. -/
theorem c2_witness :
    ((ModernAnalysisSystem.startAnalysis initSt (some [("segmento", "ab")])
        (FetchResult.ok analyzeOkResp)).fetches = 0 ∧
     (ModernAnalysisSystem.startAnalysis initSt (some [("segmento", "ab")])
        (FetchResult.ok analyzeOkResp)).st = initSt ∧
     ∃ n ∈ (ModernAnalysisSystem.startAnalysis initSt (some [("segmento", "ab")])
        (FetchResult.ok analyzeOkResp)).notifs, n.sev = Severity.warning) ∧
    ((Globals.startAnalysis (some "") (some "Tênis")
        (FetchResult.ok globalsOkResp)).fetches = 0 ∧
     ∃ n ∈ (Globals.startAnalysis (some "") (some "Tênis")
        (FetchResult.ok globalsOkResp)).notifs, n.sev = Severity.error) :=
  ⟨c2_amended.1 initSt [("segmento", "ab")] (FetchResult.ok analyzeOkResp) (by decide),
   c2_amended.2 (some "") (some "Tênis") (FetchResult.ok globalsOkResp)
     (Or.inl (by decide))⟩

/-- Helper: `loadSavedSessions` touches only the in-memory session map —
timers, the stored interval handle and `localStorage` are preserved; it
always counts as exactly one session-list refetch and shows no
notification. -/
theorem loadSavedSessions_preserves (s : St) (r : FetchResult SessionsResp) :
    (ModernAnalysisSystem.loadSavedSessions s r).st.progressInterval = s.progressInterval ∧
    (ModernAnalysisSystem.loadSavedSessions s r).st.liveTimers = s.liveTimers ∧
    (ModernAnalysisSystem.loadSavedSessions s r).st.storage = s.storage ∧
    (ModernAnalysisSystem.loadSavedSessions s r).refetches = 1 ∧
    (ModernAnalysisSystem.loadSavedSessions s r).notifs = [] := by
  cases r with
  | thrown m => simp [ModernAnalysisSystem.loadSavedSessions]
  | ok rr =>
    simp only [ModernAnalysisSystem.loadSavedSessions]
    split_ifs <;> simp

/-- Helper: after `stopProgressMonitoring` no interval handle is
stored. -/
theorem stopProgressMonitoring_interval_none (s : St) :
    (ModernAnalysisSystem.stopProgressMonitoring s).progressInterval = none := by
  cases h : s.progressInterval <;>
    simp [ModernAnalysisSystem.stopProgressMonitoring, h]

/-- C3 amended: on a `success:true, completed:true` poll response, the
class controller's tick stops the timer, removes the persisted session
identifier from browser storage, emits the success notification, and
invokes the session-list refetch exactly once; the free-function
poller's tick, on the same response, stops its timer and emits a
success notification but removes nothing from storage and performs zero
session-list refetches. -/
theorem c3_amended (s : St) (d : ProgressResp) (srsp : FetchResult SessionsResp)
    (h1 : d.success = true) (h2 : d.completed = true) :
    (ModernAnalysisSystem.progressTick s (FetchResult.ok d) srsp).st.progressInterval = none ∧
    (ModernAnalysisSystem.progressTick s (FetchResult.ok d) srsp).st.liveTimers =
      (ModernAnalysisSystem.stopProgressMonitoring s).liveTimers ∧
    (ModernAnalysisSystem.progressTick s (FetchResult.ok d) srsp).st.storage
      "currentSessionId" = none ∧
    notifSuccess "Análise concluída com sucesso!" ∈
      (ModernAnalysisSystem.progressTick s (FetchResult.ok d) srsp).notifs ∧
    (ModernAnalysisSystem.progressTick s (FetchResult.ok d) srsp).refetches = 1 ∧
    (Globals.progressTick (FetchResult.ok d)).intervalCleared = true ∧
    (Globals.progressTick (FetchResult.ok d)).storageRemoved = false ∧
    (Globals.progressTick (FetchResult.ok d)).refetches = 0 := by
  have hload := loadSavedSessions_preserves
    { ModernAnalysisSystem.stopProgressMonitoring s with
      storage := storageRemove
        (ModernAnalysisSystem.stopProgressMonitoring s).storage "currentSessionId" }
    srsp
  simp only [ModernAnalysisSystem.progressTick, h1, h2, if_true]
  refine ⟨?_, ?_, ?_, ?_, ?_, ?_, ?_, ?_⟩
  · rw [hload.1]
    exact stopProgressMonitoring_interval_none s
  · rw [hload.2.1]
  · rw [hload.2.2.1]
    simp [storageRemove]
  · simp [hload.2.2.2.2]
  · exact hload.2.2.2.1
  · simp [Globals.progressTick, h1, h2]
  · simp [Globals.progressTick, h1, h2]
  · simp [Globals.progressTick, h1, h2]

/-- C3 counterexample: the free-function poller, on a successful
response with the completion flag set, performs zero session-list
refetches and removes nothing from browser storage — the claim requires
one refetch and removal of the persisted identifier for every such
response. -/
theorem c3_counterexample :
    completedResp.success = true ∧ completedResp.completed = true ∧
    (Globals.progressTick (FetchResult.ok completedResp)).refetches = 0 ∧
    (Globals.progressTick (FetchResult.ok completedResp)).storageRemoved = false ∧
    (Globals.progressTick (FetchResult.ok completedResp)).intervalCleared = true := by
  decide

/-- C3 witness: instantiating the amended statement at the example
state with a live timer and a concrete completed response. -/
theorem c3_witness :
    (ModernAnalysisSystem.progressTick exSt (FetchResult.ok completedResp) sessOkResp).st.progressInterval = none ∧
    (ModernAnalysisSystem.progressTick exSt (FetchResult.ok completedResp) sessOkResp).st.liveTimers =
      (ModernAnalysisSystem.stopProgressMonitoring exSt).liveTimers ∧
    (ModernAnalysisSystem.progressTick exSt (FetchResult.ok completedResp) sessOkResp).st.storage
      "currentSessionId" = none ∧
    notifSuccess "Análise concluída com sucesso!" ∈
      (ModernAnalysisSystem.progressTick exSt (FetchResult.ok completedResp) sessOkResp).notifs ∧
    (ModernAnalysisSystem.progressTick exSt (FetchResult.ok completedResp) sessOkResp).refetches = 1 ∧
    (Globals.progressTick (FetchResult.ok completedResp)).intervalCleared = true ∧
    (Globals.progressTick (FetchResult.ok completedResp)).storageRemoved = false ∧
    (Globals.progressTick (FetchResult.ok completedResp)).refetches = 0 :=
  c3_amended exSt completedResp sessOkResp rfl rfl

/-- C4 amended: in the class controller a thrown transport error on a
poll tick is only logged — state (hence the live timer) is unchanged
and no notification is shown; the tick stops the timer with an
error notification exactly when the response has `success:false`
together with a truthy `error` field (in particular, a response with
`success:true` and an `error` field does not stop it).  The
free-function poller instead clears its interval and shows an error
notification already on a thrown transport error. -/
theorem c4_amended :
    (∀ (s : St) (m : String) (srsp : FetchResult SessionsResp),
      (ModernAnalysisSystem.progressTick s (FetchResult.thrown m) srsp).st = s ∧
      (ModernAnalysisSystem.progressTick s (FetchResult.thrown m) srsp).notifs = [] ∧
      (ModernAnalysisSystem.progressTick s (FetchResult.thrown m) srsp).logs =
        ["Erro no monitoramento:"]) ∧
    (∀ (s : St) (d : ProgressResp) (srsp : FetchResult SessionsResp),
      ((∃ n ∈ (ModernAnalysisSystem.progressTick s (FetchResult.ok d) srsp).notifs,
          n.sev = Severity.error) ↔
        (d.success = false ∧ truthy d.error = true))) ∧
    (∀ (s : St) (d : ProgressResp) (srsp : FetchResult SessionsResp),
      d.success = false → truthy d.error = true →
        (ModernAnalysisSystem.progressTick s (FetchResult.ok d) srsp).st =
          ModernAnalysisSystem.stopProgressMonitoring s) ∧
    (∀ m : String,
      (Globals.progressTick (FetchResult.thrown m)).intervalCleared = true ∧
      ∃ n ∈ (Globals.progressTick (FetchResult.thrown m)).notifs,
        n.sev = Severity.error) := by
  refine ⟨?_, ?_, ?_, ?_⟩
  · intro s m srsp
    exact ⟨rfl, rfl, rfl⟩
  · intro s d srsp
    by_cases hs : d.success
    · by_cases hc : d.completed
      · have hload := loadSavedSessions_preserves
          { ModernAnalysisSystem.stopProgressMonitoring s with
            storage := storageRemove
              (ModernAnalysisSystem.stopProgressMonitoring s).storage "currentSessionId" }
          srsp
        simp [ModernAnalysisSystem.progressTick, hs, hc, hload.2.2.2.2, notifSuccess]
      · simp [ModernAnalysisSystem.progressTick, hs, hc]
    · cases he : d.error with
      | none => simp [ModernAnalysisSystem.progressTick, hs, he, truthy]
      | some e =>
        by_cases he2 : e == ""
        · have : e = "" := by simpa using he2
          simp [ModernAnalysisSystem.progressTick, hs, he, he2, truthy, this]
        · simp [ModernAnalysisSystem.progressTick, hs, he, he2, truthy, notifError]
          simpa using he2
  · intro s d srsp hs he
    rcases hd : d.error with _ | e
    · rw [hd] at he
      simp [truthy] at he
    · rw [hd] at he
      have he2 : ¬ e == "" := by
        simp only [truthy] at he
        simpa using he
      simp [ModernAnalysisSystem.progressTick, hs, hd, he2]
  · intro m
    refine ⟨rfl, notifError ("Erro no monitoramento: " ++ m), ?_, rfl⟩
    simp [Globals.progressTick]

/-- C4 counterexample: a thrown transport error on a tick of the
free-function poller clears the interval and shows an error
notification — the claim requires a transient transport failure to be
only logged with the timer continuing. -/
theorem c4_counterexample :
    (Globals.progressTick (FetchResult.thrown "Falha de rede")).intervalCleared = true ∧
    notifError "Erro no monitoramento: Falha de rede" ∈
      (Globals.progressTick (FetchResult.thrown "Falha de rede")).notifs ∧
    (Globals.progressTick (FetchResult.thrown "Falha de rede")).logs =
      ["Falha ao monitorar progresso:"] := by
  decide

/-- C4 witness: instantiating the application-error part of the amended
statement at the example state and a concrete `success:false` response
with an explicit error. -/
theorem c4_witness :
    (ModernAnalysisSystem.progressTick exSt (FetchResult.ok errorResp) sessOkResp).st =
      ModernAnalysisSystem.stopProgressMonitoring exSt :=
  c4_amended.2.2.1 exSt errorResp sessOkResp rfl rfl

/-- C5: whenever a lifecycle action (pause, resume, save, continue,
delete, clear-all) actually issues its request and that request fails —
by a thrown transport error or a `success:false` response — the handler
shows an error notification and the controller state is exactly what it
was before: session map, current session id, paused flag, timers and
persisted storage are all untouched. -/
theorem c5_failed_action_no_mutation (s : St) (a : ModernAnalysisSystem.LifecycleAction)
    (resp : FetchResult SimpleResp) (srsp : FetchResult SessionsResp)
    (hfail : ModernAnalysisSystem.requestFailed resp = true)
    (hreq : ModernAnalysisSystem.issuesRequest s a = true) :
    (ModernAnalysisSystem.applyLifecycle s a resp srsp).st = s ∧
    ∃ n ∈ (ModernAnalysisSystem.applyLifecycle s a resp srsp).notifs,
      n.sev = Severity.error := by
  cases a with
  | pause =>
    rw [ModernAnalysisSystem.issuesRequest] at hreq
    cases resp with
    | thrown m =>
      refine ⟨?_, notifError ("Erro ao pausar: " ++ m), ?_, rfl⟩ <;>
        simp [ModernAnalysisSystem.applyLifecycle, ModernAnalysisSystem.pauseSession, hreq]
    | ok r =>
      have hr : r.success = false := by
        simpa [ModernAnalysisSystem.requestFailed] using hfail
      refine ⟨?_, notifError ("Erro ao pausar: " ++ (r.error.getD "")), ?_, rfl⟩ <;>
        simp [ModernAnalysisSystem.applyLifecycle, ModernAnalysisSystem.pauseSession, hreq, hr]
  | resume =>
    rw [ModernAnalysisSystem.issuesRequest] at hreq
    cases resp with
    | thrown m =>
      refine ⟨?_, notifError ("Erro ao resumir: " ++ m), ?_, rfl⟩ <;>
        simp [ModernAnalysisSystem.applyLifecycle, ModernAnalysisSystem.resumeSession, hreq]
    | ok r =>
      have hr : r.success = false := by
        simpa [ModernAnalysisSystem.requestFailed] using hfail
      refine ⟨?_, notifError ("Erro ao resumir: " ++ (r.error.getD "")), ?_, rfl⟩ <;>
        simp [ModernAnalysisSystem.applyLifecycle, ModernAnalysisSystem.resumeSession, hreq, hr]
  | save =>
    rw [ModernAnalysisSystem.issuesRequest] at hreq
    cases resp with
    | thrown m =>
      refine ⟨?_, notifError ("Erro ao salvar: " ++ m), ?_, rfl⟩ <;>
        simp [ModernAnalysisSystem.applyLifecycle, ModernAnalysisSystem.saveSession, hreq]
    | ok r =>
      have hr : r.success = false := by
        simpa [ModernAnalysisSystem.requestFailed] using hfail
      refine ⟨?_, notifError ("Erro ao salvar: " ++ (r.error.getD "")), ?_, rfl⟩ <;>
        simp [ModernAnalysisSystem.applyLifecycle, ModernAnalysisSystem.saveSession, hreq, hr]
  | cont sid =>
    cases resp with
    | thrown m =>
      refine ⟨?_, notifError ("Erro ao continuar: " ++ m), ?_, rfl⟩ <;>
        simp [ModernAnalysisSystem.applyLifecycle, ModernAnalysisSystem.continueSession]
    | ok r =>
      have hr : r.success = false := by
        simpa [ModernAnalysisSystem.requestFailed] using hfail
      refine ⟨?_, notifError ("Erro ao continuar: " ++ (r.error.getD "")), ?_, rfl⟩ <;>
        simp [ModernAnalysisSystem.applyLifecycle, ModernAnalysisSystem.continueSession, hr]
  | delete sid c =>
    rw [ModernAnalysisSystem.issuesRequest] at hreq
    cases resp with
    | thrown m =>
      refine ⟨?_, notifError ("Erro ao excluir: " ++ m), ?_, rfl⟩ <;>
        simp [ModernAnalysisSystem.applyLifecycle, ModernAnalysisSystem.deleteSession, hreq]
    | ok r =>
      have hr : r.success = false := by
        simpa [ModernAnalysisSystem.requestFailed] using hfail
      refine ⟨?_, notifError ("Erro ao excluir: " ++ (r.error.getD "")), ?_, rfl⟩ <;>
        simp [ModernAnalysisSystem.applyLifecycle, ModernAnalysisSystem.deleteSession, hreq, hr]
  | clearAll c =>
    rw [ModernAnalysisSystem.issuesRequest] at hreq
    cases resp with
    | thrown m =>
      refine ⟨?_, notifError ("Erro ao limpar sessões: " ++ m), ?_, rfl⟩ <;>
        simp [ModernAnalysisSystem.applyLifecycle, ModernAnalysisSystem.clearAllSessions, hreq]
    | ok r =>
      have hr : r.success = false := by
        simpa [ModernAnalysisSystem.requestFailed] using hfail
      refine ⟨?_, notifError ("Erro ao limpar sessões: " ++ (r.error.getD "")), ?_, rfl⟩ <;>
        simp [ModernAnalysisSystem.applyLifecycle, ModernAnalysisSystem.clearAllSessions, hreq, hr]

/-- C5 witness: a pause request that fails with a thrown transport
error, issued from the example state with an active session, leaves the
state unchanged and shows an error notification. -/
theorem c5_witness :
    (ModernAnalysisSystem.applyLifecycle exSt ModernAnalysisSystem.LifecycleAction.pause
        (FetchResult.thrown "Falha de rede") sessOkResp).st = exSt ∧
    ∃ n ∈ (ModernAnalysisSystem.applyLifecycle exSt ModernAnalysisSystem.LifecycleAction.pause
        (FetchResult.thrown "Falha de rede") sessOkResp).notifs,
      n.sev = Severity.error :=
  c5_failed_action_no_mutation exSt ModernAnalysisSystem.LifecycleAction.pause
    (FetchResult.thrown "Falha de rede") sessOkResp rfl rfl
